import Mathlib

/-!
# Verification of the DBRP Mapping Service and its Authorization Decorator

A shallow embedding of the `dbrp` package of this repository: the typed
error constructors, the `DBRPMappingAuthorizedService` decorator of
`dbrp/service_auth.go`, and a model of the Mapping Service validated
against the test tables of `testing/dbrp_mapping_v2.go`, together with
proofs of the claims of the specification.
-/

/-- Equality of `Except` results is decidable; needed to evaluate the
embedded operations on concrete inputs. -/
instance {ε α : Type} [DecidableEq ε] [DecidableEq α] :
    DecidableEq (Except ε α) := fun a b =>
  match a, b with
  | .error e₁, .error e₂ =>
    if h : e₁ = e₂ then isTrue (by rw [h])
    else isFalse (by intro hh; cases hh; exact h rfl)
  | .error _, .ok _ => isFalse (by intro hh; cases hh)
  | .ok _, .error _ => isFalse (by intro hh; cases hh)
  | .ok a₁, .ok a₂ =>
    if h : a₁ = a₂ then isTrue (by rw [h])
    else isFalse (by intro hh; cases hh; exact h rfl)

namespace DBRP

/-- Error codes of the `influxdb.Error` taxonomy used by the `dbrp` package:
`EInvalid`, `ENotFound`, `EConflict`, `EInternal`, `EUnauthorized`. -/
inductive ErrCode where
  | invalid
  | notFound
  | conflict
  | internal
  | unauthorized
  deriving DecidableEq, Repr

/-- A Go `error` value as the `dbrp` package handles them: `nil`, a plain
error with a message (`fmt.Errorf`, `errors.New`, or any foreign error
identified by its message), or an `influxdb.Error` carrying a code, a
message, and a wrapped error (whose `Err` field may itself be `nil`). -/
inductive GoError where
  | nil
  | basic (msg : String)
  | influx (code : ErrCode) (msg : String) (err : GoError)
  deriving DecidableEq, Repr

/-- The code of an `influxdb.Error`; `nil` and plain errors have none. -/
def GoError.errCode : GoError → Option ErrCode
  | .nil => none
  | .basic _ => none
  | .influx c _ _ => some c

/-- `ErrDBRPNotFound` of the `dbrp` package: code `ENotFound`,
message `unable to find DBRP`. -/
def ErrDBRPNotFound : GoError := .influx .notFound "unable to find DBRP" .nil

/-- `NotUniqueIDError` of the `dbrp` package: code `EConflict`. -/
def NotUniqueIDError : GoError := .influx .conflict "ID already exists" .nil

/-- `ErrFailureGeneratingID` of the `dbrp` package: code `EInternal`. -/
def ErrFailureGeneratingID : GoError :=
  .influx .internal "unable to generate valid id" .nil

/-- `ErrUnauthorized` of the `dbrp` package: code `EUnauthorized`,
message `unauthorized`, wrapping the error of the failed authorization
check. -/
def ErrUnauthorized (err : GoError) : GoError :=
  .influx .unauthorized "unauthorized" err

/-- `ErrInvalidDBRPError` of the `dbrp` package: code `EInvalid`,
message `DBRP provided is invalid`, wrapping the given error. -/
def ErrInvalidDBRPError (err : GoError) : GoError :=
  .influx .invalid "DBRP provided is invalid" err

/-- `ErrInternalServiceError` of the `dbrp` package: code `EInternal`,
wrapping the given error. -/
def ErrInternalServiceError (err : GoError) : GoError :=
  .influx .internal "" err

/-- Rendering of an error by `fmt.Sprintf` with verb `v`: `nil` prints as
`<nil>`, an error prints its message (only the outermost message matters
here). -/
def goErrorString : GoError → String
  | .nil => "<nil>"
  | .basic msg => msg
  | .influx _ msg _ => msg

/-- `UnexpectedDBRPIndexError` of the `dbrp` package: code `EInternal`, with
the argument rendered into the message and no wrapped error. -/
def UnexpectedDBRPIndexError (err : GoError) : GoError :=
  .influx .internal
    ("unexpected error retrieving DBRP index; Err: " ++ goErrorString err) .nil

/-- `ErrDBRPAlreadyExist` of the `dbrp` package: code `EConflict`; the `err`
argument is ignored and the wrapped error is always the same fixed
`fmt.Errorf` message directing the caller to `.Update`. -/
def ErrDBRPAlreadyExist (err : GoError) : GoError :=
  .influx .conflict ""
    (.basic "dbrp already exist for this particular ID. If you are trying an update use the right function .Update")

/-- `ErrInternalDBRPError` of the `dbrp` package. Its doc comment says it
`is used when the error comes from an internal system`, but the code sets
`Code: influxdb.EInvalid`. -/
def ErrInternalDBRPError (err : GoError) : GoError :=
  .influx .invalid "" err

/-- `influxdb.DBRPMappingV2`: the sole entity. IDs are 64-bit identifiers,
modelled as `Nat` (they are opaque names here; no arithmetic is performed
on them). -/
structure DBRPMappingV2 where
  ID : Nat
  Database : String
  RetentionPolicy : String
  Default : Bool
  OrganizationID : Nat
  BucketID : Nat
  deriving DecidableEq, Repr

/-- `influxdb.DBRPMappingFilterV2`: each field optional, `none` (a nil
pointer in Go) meaning "do not constrain on this field". The default value
`{}` is the empty filter, all fields unset, as in Go. -/
structure DBRPMappingFilterV2 where
  ID : Option Nat := none
  OrgID : Option Nat := none
  BucketID : Option Nat := none
  Database : Option String := none
  RetentionPolicy : Option String := none
  Default : Option Bool := none
  deriving DecidableEq, Repr

/-- The codepoint sequence of a string; two strings compare in ascending
lexicographic order exactly when their codepoint sequences do (the names in
this package are ASCII, for which this is also the Go byte order). -/
def strCode (s : String) : List Nat := s.data.map Char.toNat

/-- The secondary-index key of a mapping:
`(organization_id, database, retention_policy, id)`, compared
lexicographically. -/
def dbrpKey (m : DBRPMappingV2) :
    Lex (Nat × Lex (List Nat × Lex (List Nat × Nat))) :=
  toLex (m.OrganizationID,
    toLex (strCode m.Database, toLex (strCode m.RetentionPolicy, m.ID)))

/-- Ascending index order on mappings: lexicographic on
`(organization_id, database, retention_policy, id)`. -/
def dbrpLE (a b : DBRPMappingV2) : Prop := dbrpKey a ≤ dbrpKey b

instance : DecidableRel dbrpLE := fun a b =>
  inferInstanceAs (Decidable (dbrpKey a ≤ dbrpKey b))

instance : IsTotal DBRPMappingV2 dbrpLE :=
  ⟨fun a b => le_total (dbrpKey a) (dbrpKey b)⟩

instance : IsTrans DBRPMappingV2 dbrpLE :=
  ⟨fun _ _ _ hab hbc => le_trans hab hbc⟩

/-- Sort a scan result into ascending index order. -/
def sortDBRP (l : List DBRPMappingV2) : List DBRPMappingV2 :=
  List.insertionSort dbrpLE l

/-- A single optional filter field: unset (`none`) constrains nothing, set
compares for equality. -/
def optEq {α : Type} [DecidableEq α] (o : Option α) (x : α) : Bool :=
  match o with
  | none => true
  | some v => decide (x = v)

/-- The conjunction of the predicates of the set filter fields; a field that
is unset is never compared. -/
def dbrpMatchFilter (f : DBRPMappingFilterV2) (m : DBRPMappingV2) : Bool :=
  optEq f.ID m.ID && optEq f.OrgID m.OrganizationID &&
    optEq f.BucketID m.BucketID && optEq f.Database m.Database &&
    optEq f.RetentionPolicy m.RetentionPolicy && optEq f.Default m.Default

namespace Service

/-- Modelled from the spec: bounded ID generation of the Mapping Service
(`dbrp/service.go` is not among the visible sources). The generator is a
stream of candidate identifiers, retried while a candidate collides with an
existing record, with `ErrFailureGeneratingID` after the retry bound (the
length of the stream). -/
def pickFreshID (gen : List Nat) (st : List DBRPMappingV2) : Except GoError Nat :=
  match gen with
  | [] => .error ErrFailureGeneratingID
  | g :: rest =>
    if st.any (fun x => x.ID == g) then pickFreshID rest st else .ok g

/-- Modelled from the spec: `Create` of the Mapping Service
(`dbrp/service.go` is not among the visible sources). Validates the
required fields; generates an id when `ID` is zero/unset; validates the
target bucket via Bucket Lookup; fails with `ErrDBRPAlreadyExist` when a
record with the same id is already present (create is never an implicit
update); otherwise persists the record. The state is a plain record list;
failure returns no state, encoding that a failed operation observes no
partial write. -/
def Create (bucketExists : Nat → Nat → Bool) (gen : List Nat)
    (m : DBRPMappingV2) (st : List DBRPMappingV2) :
    Except GoError (List DBRPMappingV2 × DBRPMappingV2) :=
  if m.Database = "" ∨ m.RetentionPolicy = "" then
    .error (ErrInvalidDBRPError .nil)
  else
    match (if m.ID = 0 then pickFreshID gen st else .ok m.ID) with
    | .error e => .error e
    | .ok newID =>
      if bucketExists m.OrganizationID m.BucketID = false then
        .error (ErrInvalidDBRPError .nil)
      else if st.any (fun x => x.ID == newID) then
        .error (ErrDBRPAlreadyExist .nil)
      else
        let mNew := { m with ID := newID }
        .ok (st ++ [mNew], mNew)

/-- Modelled from the spec: `FindByID` of the Mapping Service delegates to
the Store `get` and translates a store-level not-found into
`ErrDBRPNotFound`. -/
def FindByID (id : Nat) (st : List DBRPMappingV2) :
    Except GoError DBRPMappingV2 :=
  match st.find? (fun m => m.ID == id) with
  | some m => .ok m
  | none => .error ErrDBRPNotFound

/-- The sequence returned by `FindMany`: the records satisfying the
conjunction of the set filter fields, in ascending index order. -/
def FindManyList (f : DBRPMappingFilterV2) (st : List DBRPMappingV2) :
    List DBRPMappingV2 :=
  sortDBRP (st.filter (fun m => dbrpMatchFilter f m))

/-- Modelled from the spec: `FindMany` of the Mapping Service applies the
filter predicates as an in-memory conjunction over the scanned records and
returns the matching sequence in ascending
`(organization_id, database, retention_policy, id)` order together with its
total count; an empty result is success, not an error. -/
def FindMany (f : DBRPMappingFilterV2) (st : List DBRPMappingV2) :
    Except GoError (List DBRPMappingV2 × Nat) :=
  .ok (FindManyList f st, (FindManyList f st).length)

/-- Modelled from the spec: `Delete` of the Mapping Service removes the
record with the given id. For an id that is not present the spec (§9)
records that the observed test behavior diverges from the stricter
`NotFound` reading it proposes; the delete test table of
`testing/dbrp_mapping_v2.go` (case `delete non-existing dbrpMapping`)
expects success with the records untouched, and the tests are the
authority, so the model makes deletion of an absent id a successful
no-op. -/
def Delete (id : Nat) (st : List DBRPMappingV2) :
    Except GoError (List DBRPMappingV2) :=
  .ok (st.filter (fun m => m.ID != id))

end Service

/-- `influxdb.DBRPTResourceype` (sic): the resource type every decorator
check passes to the authorizer. -/
inductive ResourceType where
  | dbrp
  deriving DecidableEq, Repr

/-- The constant passed by every method of `dbrp/service_auth.go`. -/
def DBRPTResourceype : ResourceType := .dbrp

/-- The external `authorizer` package as used by `dbrp/service_auth.go`:
each function captures the caller context and returns the error of the
check, `.ok` meaning the check passed (the first two results of each Go
function are discarded by the decorator: `_, _, err := ...`). -/
structure AuthChecks where
  AuthorizeRead : ResourceType → Nat → Nat → Except GoError Unit
  AuthorizeWrite : ResourceType → Nat → Nat → Except GoError Unit
  AuthorizeCreate : ResourceType → Nat → Except GoError Unit
  AuthorizeOrgReadResource : ResourceType → Nat → Except GoError Unit

/-- The wrapped `influxdb.DBRPMappingServiceV2` interface as consumed by
`dbrp/service_auth.go`, over an abstract store state `σ`, so that an
invocation of the underlying store is observable as a dependence on, or a
change of, the state. -/
structure DBRPMappingServiceV2 (σ : Type) where
  FindByID : Nat → Nat → σ → Except GoError DBRPMappingV2 × σ
  FindMany : DBRPMappingFilterV2 → σ → Except GoError (List DBRPMappingV2 × Nat) × σ
  Create : DBRPMappingV2 → σ → Except GoError Unit × σ
  Update : DBRPMappingV2 → σ → Except GoError Unit × σ
  Delete : Nat → Nat → σ → Except GoError Unit × σ

/-- `DBRPMappingAuthorizedService.FindByID` (`dbrp/service_auth.go:16`):
check `AuthorizeRead(ctx, DBRPTResourceype, id, orgID)`, then delegate to
the wrapped service. -/
def authFindByID {σ : Type} (ck : AuthChecks) (svc : DBRPMappingServiceV2 σ)
    (orgID id : Nat) (s : σ) : Except GoError DBRPMappingV2 × σ :=
  match ck.AuthorizeRead DBRPTResourceype id orgID with
  | .error e => (.error (ErrUnauthorized e), s)
  | .ok _ => svc.FindByID orgID id s

/-- `DBRPMappingAuthorizedService.FindMany` (`dbrp/service_auth.go:24`):
the method dereferences `*filter.OrgID` unconditionally before the check;
a nil `OrgID` makes the Go call panic, embedded as result `none`. -/
def authFindMany {σ : Type} (ck : AuthChecks) (svc : DBRPMappingServiceV2 σ)
    (f : DBRPMappingFilterV2) (s : σ) :
    Option (Except GoError (List DBRPMappingV2 × Nat) × σ) :=
  match f.OrgID with
  | none => none
  | some oid =>
    match ck.AuthorizeOrgReadResource DBRPTResourceype oid with
    | .error e => some (.error (ErrUnauthorized e), s)
    | .ok _ => some (svc.FindMany f s)

/-- `DBRPMappingAuthorizedService.Create` (`dbrp/service_auth.go:32`):
check `AuthorizeCreate(ctx, DBRPTResourceype, t.OrganizationID)`, then
delegate to the wrapped service. -/
def authCreate {σ : Type} (ck : AuthChecks) (svc : DBRPMappingServiceV2 σ)
    (t : DBRPMappingV2) (s : σ) : Except GoError Unit × σ :=
  match ck.AuthorizeCreate DBRPTResourceype t.OrganizationID with
  | .error e => (.error (ErrUnauthorized e), s)
  | .ok _ => svc.Create t s

/-- `DBRPMappingAuthorizedService.Update` (`dbrp/service_auth.go:39`). The
source delegates to `svc.Update` — the decorator method itself — rather
than to `svc.DBRPMappingServiceV2.Update`, so a passing check re-enters
the same method. The recursion is embedded with explicit `fuel`; `none` is
a call that has not returned within `fuel` re-entries. -/
def authUpdate {σ : Type} (ck : AuthChecks) (svc : DBRPMappingServiceV2 σ)
    (u : DBRPMappingV2) : Nat → σ → Option (Except GoError Unit × σ)
  | 0, _ => none
  | fuel + 1, s =>
    match ck.AuthorizeWrite DBRPTResourceype u.ID u.OrganizationID with
    | .error e => some (.error (ErrUnauthorized e), s)
    | .ok _ => authUpdate ck svc u fuel s

/-- `DBRPMappingAuthorizedService.Delete` (`dbrp/service_auth.go:46`). Like
`Update`, the source delegates to `svc.Delete` — the decorator method
itself — rather than to `svc.DBRPMappingServiceV2.Delete`. -/
def authDelete {σ : Type} (ck : AuthChecks) (svc : DBRPMappingServiceV2 σ)
    (orgID id : Nat) : Nat → σ → Option (Except GoError Unit × σ)
  | 0, _ => none
  | fuel + 1, s =>
    match ck.AuthorizeWrite DBRPTResourceype id orgID with
    | .error e => some (.error (ErrUnauthorized e), s)
    | .ok _ => authDelete ck svc orgID id fuel s

/-! ## Concrete data

The identifier constants `dbrpOrg1ID`, …, `dbrpBucketBID` referenced by the
test tables of `testing/dbrp_mapping_v2.go` are hexadecimal ID strings
defined in a file outside the visible sources; only their distinctness
matters to the tables, so they are given distinct placeholder values. -/

def dbrpOrg1ID : Nat := 1
def dbrpOrg2ID : Nat := 2
def dbrpOrg3ID : Nat := 3
def dbrpBucket1ID : Nat := 11
def dbrpBucket2ID : Nat := 12
def dbrpBucketAID : Nat := 13
def dbrpBucketBID : Nat := 14

/-- The first mapping of the delete test table (`ID 100`). -/
def mapping1 : DBRPMappingV2 :=
  { ID := 100, Database := "database1", RetentionPolicy := "retention_policy1",
    Default := false, OrganizationID := dbrpOrg1ID, BucketID := dbrpBucket1ID }

/-- The second mapping of the delete test table (`ID 200`). -/
def mapping2 : DBRPMappingV2 :=
  { ID := 200, Database := "database2", RetentionPolicy := "retention_policy2",
    Default := true, OrganizationID := dbrpOrg2ID, BucketID := dbrpBucket2ID }

/-- The store of both delete test cases of `testing/dbrp_mapping_v2.go`. -/
def deleteTestStore : List DBRPMappingV2 := [mapping1, mapping2]

/-- A wrapped service over the trivial store, for closed instantiations. -/
def unitService : DBRPMappingServiceV2 Unit where
  FindByID := fun _ _ s => (.error ErrDBRPNotFound, s)
  FindMany := fun _ s => (.ok ([], 0), s)
  Create := fun _ s => (.ok (), s)
  Update := fun _ s => (.ok (), s)
  Delete := fun _ _ s => (.ok (), s)

/-- An authorizer whose every check passes. -/
def allowAll : AuthChecks where
  AuthorizeRead := fun _ _ _ => .ok ()
  AuthorizeWrite := fun _ _ _ => .ok ()
  AuthorizeCreate := fun _ _ => .ok ()
  AuthorizeOrgReadResource := fun _ _ => .ok ()

/-- An authorizer whose every check is denied with a fixed error. -/
def denyAll : AuthChecks where
  AuthorizeRead := fun _ _ _ => .error (.basic "permission denied")
  AuthorizeWrite := fun _ _ _ => .error (.basic "permission denied")
  AuthorizeCreate := fun _ _ => .error (.basic "permission denied")
  AuthorizeOrgReadResource := fun _ _ => .error (.basic "permission denied")

/-! ## Helper lemmas -/

theorem optEq_eq_true_iff {α : Type} [DecidableEq α] (o : Option α) (x : α) :
    optEq o x = true ↔ ∀ v, o = some v → x = v := by
  cases o <;> simp [optEq]

theorem dbrpMatchFilter_eq_true_iff (f : DBRPMappingFilterV2)
    (m : DBRPMappingV2) :
    dbrpMatchFilter f m = true ↔
      (∀ v, f.ID = some v → m.ID = v) ∧
      (∀ v, f.OrgID = some v → m.OrganizationID = v) ∧
      (∀ v, f.BucketID = some v → m.BucketID = v) ∧
      (∀ v, f.Database = some v → m.Database = v) ∧
      (∀ v, f.RetentionPolicy = some v → m.RetentionPolicy = v) ∧
      (∀ v, f.Default = some v → m.Default = v) := by
  simp [dbrpMatchFilter, Bool.and_eq_true, optEq_eq_true_iff, and_assoc]

theorem dbrpMatchFilter_empty (m : DBRPMappingV2) :
    dbrpMatchFilter {} m = true := rfl

theorem findManyList_empty_filter (st : List DBRPMappingV2) :
    Service.FindManyList {} st = sortDBRP st := by
  unfold Service.FindManyList
  rw [List.filter_eq_self.mpr (fun m _ => dbrpMatchFilter_empty m)]

theorem findMany_empty_filter_eq (st : List DBRPMappingV2) :
    Service.FindMany {} st = .ok (sortDBRP st, st.length) := by
  unfold Service.FindMany
  rw [findManyList_empty_filter]
  rw [show (sortDBRP st).length = st.length from
    List.length_insertionSort dbrpLE st]

/-! ## Model validation against the test tables of
`testing/dbrp_mapping_v2.go` -/

/-- Test `basic create dbrpMapping`: creating `mapping1`-shaped data in an
empty store succeeds and a subsequent `FindMany` with the empty filter
shows exactly that record. -/
theorem modelCheck_create_basic :
    Service.Create (fun _ _ => true) [] mapping1 [] = .ok ([mapping1], mapping1) ∧
    Service.FindMany {} [mapping1] = .ok ([mapping1], 1) := by decide

/-- Test `error on create existing dbrpMapping with same ID`: creating a
duplicate of `mapping1` (with `Default := true`) fails with
`ErrDBRPAlreadyExist` and `FindMany` still shows the original record with
its original field values. -/
theorem modelCheck_create_duplicate :
    Service.Create (fun _ _ => true) [] { mapping1 with Default := true }
        [mapping1] = .error (ErrDBRPAlreadyExist .nil) ∧
    Service.FindMany {} [mapping1] = .ok ([mapping1], 1) := by decide

/-- Tests `find existing dbrpMapping` and `find non existing dbrpMapping`:
`FindByID` returns the record with the requested id, and
`ErrDBRPNotFound` when no record has it. -/
theorem modelCheck_findByID :
    Service.FindByID 200 deleteTestStore = .ok mapping2 ∧
    Service.FindByID 300 deleteTestStore = .error ErrDBRPNotFound := by decide

/-- Tests `delete existing dbrpMapping` and `delete non-existing
dbrpMapping`: deleting id `100` leaves exactly `mapping2`, and deleting the
absent id `300` succeeds, leaving both records. -/
theorem modelCheck_delete :
    Service.Delete 100 deleteTestStore = .ok [mapping2] ∧
    Service.Delete 300 deleteTestStore = .ok deleteTestStore := by decide

/-- The `mixed` test of `FindManyDBRPMappingsV2`: the filter setting
`retention_policy`, `default` and `org_id` returns exactly the two records
satisfying all three predicates. -/
theorem modelCheck_findMany_mixed :
    Service.FindManyList
      { RetentionPolicy := some "retention_policyA", Default := some true,
        OrgID := some dbrpOrg3ID }
      [{ ID := 100, Database := "database1", RetentionPolicy := "retention_policyA",
         Default := true, OrganizationID := dbrpOrg3ID, BucketID := dbrpBucketAID },
       { ID := 200, Database := "database1", RetentionPolicy := "retention_policyA",
         Default := true, OrganizationID := dbrpOrg3ID, BucketID := dbrpBucketAID },
       { ID := 300, Database := "database1", RetentionPolicy := "retention_policyA",
         Default := false, OrganizationID := dbrpOrg2ID, BucketID := dbrpBucketAID },
       { ID := 400, Database := "database2", RetentionPolicy := "retention_policyB",
         Default := true, OrganizationID := dbrpOrg3ID, BucketID := dbrpBucketBID }] =
      [{ ID := 100, Database := "database1", RetentionPolicy := "retention_policyA",
         Default := true, OrganizationID := dbrpOrg3ID, BucketID := dbrpBucketAID },
       { ID := 200, Database := "database1", RetentionPolicy := "retention_policyA",
         Default := true, OrganizationID := dbrpOrg3ID, BucketID := dbrpBucketAID }] := by
  decide

/-- The `not found` test of `FindManyDBRPMappingsV2`: a filter matching
nothing returns the empty sequence and no error. -/
theorem modelCheck_findMany_nothing :
    Service.FindMany
      { Database := some "database1", RetentionPolicy := some "retention_policyB" }
      [{ ID := 1, Database := "database1", RetentionPolicy := "retention_policyA",
         Default := true, OrganizationID := dbrpOrg3ID, BucketID := dbrpBucketAID },
       { ID := 2, Database := "database2", RetentionPolicy := "retention_policyB",
         Default := true, OrganizationID := dbrpOrg3ID, BucketID := dbrpBucketBID }] =
      .ok ([], 0) := by decide

/-! ## Claims -/

/-- C1 (code bug). `Update` and `Delete` of `DBRPMappingAuthorizedService`
delegate to `svc.Update` and `svc.Delete` — the decorator methods
themselves — instead of the wrapped `svc.DBRPMappingServiceV2`, so when
the authorization check passes the call recurses forever (no amount of
fuel makes it return) and the wrapped service is never invoked; by
contrast `FindByID`, `FindMany` and `Create` do delegate with the same
arguments and return the wrapped result verbatim. -/
theorem authUpdate_authDelete_never_delegate {σ : Type} (ck : AuthChecks)
    (svc : DBRPMappingServiceV2 σ) (u : DBRPMappingV2) (orgID id : Nat)
    (f : DBRPMappingFilterV2) (oid : Nat) (fuel : Nat) (s : σ)
    (hU : ck.AuthorizeWrite DBRPTResourceype u.ID u.OrganizationID = .ok ())
    (hD : ck.AuthorizeWrite DBRPTResourceype id orgID = .ok ()) :
    authUpdate ck svc u fuel s = none ∧
    authDelete ck svc orgID id fuel s = none ∧
    (ck.AuthorizeRead DBRPTResourceype id orgID = .ok () →
      authFindByID ck svc orgID id s = svc.FindByID orgID id s) ∧
    (f.OrgID = some oid →
      ck.AuthorizeOrgReadResource DBRPTResourceype oid = .ok () →
      authFindMany ck svc f s = some (svc.FindMany f s)) ∧
    (ck.AuthorizeCreate DBRPTResourceype u.OrganizationID = .ok () →
      authCreate ck svc u s = svc.Create u s) := by
  refine ⟨?_, ?_, ?_, ?_, ?_⟩
  · induction fuel with
    | zero => rfl
    | succ n ih => simp only [authUpdate, hU]; exact ih
  · induction fuel with
    | zero => rfl
    | succ n ih => simp only [authDelete, hD]; exact ih
  · intro h; simp only [authFindByID, h]
  · intro hf h; simp only [authFindMany, hf, h]
  · intro h; simp only [authCreate, h]

/-- Witness for C1: with an authorizer that allows everything, `Update` and
`Delete` on the decorator never return, while the three delegating
operations return the wrapped results. -/
theorem authUpdate_authDelete_never_delegate_witness :
    authUpdate allowAll unitService mapping1 5 () = none ∧
    authDelete allowAll unitService dbrpOrg1ID 100 5 () = none ∧
    (allowAll.AuthorizeRead DBRPTResourceype 100 dbrpOrg1ID = .ok () →
      authFindByID allowAll unitService dbrpOrg1ID 100 () =
        unitService.FindByID dbrpOrg1ID 100 ()) ∧
    (DBRPMappingFilterV2.OrgID { OrgID := some dbrpOrg1ID } = some dbrpOrg1ID →
      allowAll.AuthorizeOrgReadResource DBRPTResourceype dbrpOrg1ID = .ok () →
      authFindMany allowAll unitService { OrgID := some dbrpOrg1ID } () =
        some (unitService.FindMany { OrgID := some dbrpOrg1ID } ())) ∧
    (allowAll.AuthorizeCreate DBRPTResourceype mapping1.OrganizationID = .ok () →
      authCreate allowAll unitService mapping1 () =
        unitService.Create mapping1 ()) :=
  authUpdate_authDelete_never_delegate allowAll unitService mapping1
    dbrpOrg1ID 100 { OrgID := some dbrpOrg1ID } dbrpOrg1ID 5 () rfl rfl

/-- C2. On a denied authorization check, every operation of
`DBRPMappingAuthorizedService` returns `ErrUnauthorized` wrapping the
error of the check, with the store state returned unchanged; the stated
result does not mention the wrapped service `svc` at all, so the wrapped
Mapping Service is never invoked and the underlying store is neither read
nor mutated. -/
theorem authDenied_returns_unauthorized {σ : Type} (ck : AuthChecks)
    (svc : DBRPMappingServiceV2 σ) (orgID id oid : Nat) (t u : DBRPMappingV2)
    (f : DBRPMappingFilterV2) (e : GoError) (fuel : Nat) (s : σ) :
    (ck.AuthorizeRead DBRPTResourceype id orgID = .error e →
      authFindByID ck svc orgID id s = (.error (ErrUnauthorized e), s)) ∧
    (f.OrgID = some oid →
      ck.AuthorizeOrgReadResource DBRPTResourceype oid = .error e →
      authFindMany ck svc f s = some (.error (ErrUnauthorized e), s)) ∧
    (ck.AuthorizeCreate DBRPTResourceype t.OrganizationID = .error e →
      authCreate ck svc t s = (.error (ErrUnauthorized e), s)) ∧
    (ck.AuthorizeWrite DBRPTResourceype u.ID u.OrganizationID = .error e →
      authUpdate ck svc u (fuel + 1) s = some (.error (ErrUnauthorized e), s)) ∧
    (ck.AuthorizeWrite DBRPTResourceype id orgID = .error e →
      authDelete ck svc orgID id (fuel + 1) s = some (.error (ErrUnauthorized e), s)) := by
  refine ⟨?_, ?_, ?_, ?_, ?_⟩
  · intro h; simp only [authFindByID, h]
  · intro hf h; simp only [authFindMany, hf, h]
  · intro h; simp only [authCreate, h]
  · intro h; simp only [authUpdate, h]
  · intro h; simp only [authDelete, h]

/-- Witness for C2: with an authorizer that denies everything, all five
operations return `ErrUnauthorized` and leave the (trivial) store state
untouched. -/
theorem authDenied_returns_unauthorized_witness :
    authFindByID denyAll unitService dbrpOrg1ID 100 () =
      (.error (ErrUnauthorized (.basic "permission denied")), ()) ∧
    authFindMany denyAll unitService { OrgID := some dbrpOrg1ID } () =
      some (.error (ErrUnauthorized (.basic "permission denied")), ()) ∧
    authCreate denyAll unitService mapping1 () =
      (.error (ErrUnauthorized (.basic "permission denied")), ()) ∧
    authUpdate denyAll unitService mapping1 3 () =
      some (.error (ErrUnauthorized (.basic "permission denied")), ()) ∧
    authDelete denyAll unitService dbrpOrg1ID 100 3 () =
      some (.error (ErrUnauthorized (.basic "permission denied")), ()) := by
  obtain ⟨h1, h2, h3, h4, h5⟩ :=
    authDenied_returns_unauthorized denyAll unitService dbrpOrg1ID 100
      dbrpOrg1ID mapping1 mapping1 { OrgID := some dbrpOrg1ID }
      (.basic "permission denied") 2 ()
  exact ⟨h1 rfl, h2 rfl rfl, h3 rfl, h4 rfl, h5 rfl⟩

/-- C9. `DBRPMappingAuthorizedService.FindMany` dereferences
`*filter.OrgID` before the authorization check: for every filter whose
`OrgID` is unset the embedded call yields `none` (the Go call panics on
the nil pointer, for every authorizer, even a denying one), and for every
filter whose `OrgID` is set it yields a result. -/
theorem authFindMany_nil_orgID_panics {σ : Type} (ck : AuthChecks)
    (svc : DBRPMappingServiceV2 σ) (f : DBRPMappingFilterV2) (s : σ) :
    (f.OrgID = none → authFindMany ck svc f s = none) ∧
    (∀ oid, f.OrgID = some oid → (authFindMany ck svc f s).isSome = true) := by
  constructor
  · intro h; simp only [authFindMany, h]
  · intro oid h
    simp only [authFindMany, h]
    cases ck.AuthorizeOrgReadResource DBRPTResourceype oid <;> simp

/-- Witness for C9: the empty filter has `OrgID` unset and makes the
decorated `FindMany` panic even though the authorizer would allow the
call; setting `OrgID` makes it return. -/
theorem authFindMany_nil_orgID_panics_witness :
    authFindMany allowAll unitService {} () = none ∧
    (authFindMany allowAll unitService { OrgID := some dbrpOrg1ID } ()).isSome = true := by
  constructor
  · exact (authFindMany_nil_orgID_panics allowAll unitService {} ()).1 rfl
  · exact (authFindMany_nil_orgID_panics allowAll unitService
      { OrgID := some dbrpOrg1ID } ()).2 dbrpOrg1ID rfl

/-- C8 (code bug). Of the internal-error constructors of the `dbrp`
package, `ErrInternalServiceError` and `UnexpectedDBRPIndexError` carry
code `EInternal`, but `ErrInternalDBRPError` — whose name and doc comment
(`used when the error comes from an internal system`) promise the same —
carries code `EInvalid`. -/
theorem errInternalDBRPError_code_invalid :
    (ErrInternalServiceError GoError.nil).errCode = some ErrCode.internal ∧
    (UnexpectedDBRPIndexError GoError.nil).errCode = some ErrCode.internal ∧
    (ErrInternalDBRPError GoError.nil).errCode = some ErrCode.invalid ∧
    ErrCode.invalid ≠ ErrCode.internal := by decide

/-- C10. `ErrDBRPAlreadyExist` discards its error argument: any two
constructed errors are equal, carry code `EConflict`, and wrap the same
fixed message directing the caller to `.Update`. -/
theorem errDBRPAlreadyExist_ignores_argument (e₁ e₂ : GoError) :
    ErrDBRPAlreadyExist e₁ = ErrDBRPAlreadyExist e₂ ∧
    (ErrDBRPAlreadyExist e₁).errCode = some ErrCode.conflict ∧
    ErrDBRPAlreadyExist e₁ =
      .influx .conflict ""
        (.basic "dbrp already exist for this particular ID. If you are trying an update use the right function .Update") :=
  ⟨rfl, rfl, rfl⟩

/-- C3 counterexample. Deleting the absent id `300` from the store of the
`delete non-existing dbrpMapping` test case succeeds with the store
untouched — the test table expects no error — instead of failing with
`NotFound` as the claim states. -/
theorem delete_absent_not_notFound :
    Service.Delete 300 deleteTestStore = .ok deleteTestStore ∧
    Service.Delete 300 deleteTestStore ≠ .error ErrDBRPNotFound ∧
    ErrDBRPNotFound.errCode = some ErrCode.notFound := by decide

/-- C3 as amended. For every store state and every id not present in it,
`Delete(id)` succeeds as a no-op and leaves every existing mapping record
unchanged: a subsequent `FindMany` with the empty filter returns exactly
the previously existing records. -/
theorem delete_absent_succeeds_unchanged (id : Nat)
    (st : List DBRPMappingV2) (h : ∀ m ∈ st, m.ID ≠ id) :
    Service.Delete id st = .ok st ∧
    Service.FindMany {} st = .ok (sortDBRP st, st.length) ∧
    (sortDBRP st).Perm st := by
  refine ⟨?_, findMany_empty_filter_eq st, List.perm_insertionSort _ _⟩
  unfold Service.Delete
  rw [List.filter_eq_self.mpr]
  intro m hm
  simp only [bne_iff_ne, ne_eq]
  exact h m hm

/-- Witness for C3 as amended, at the store and absent id of the
`delete non-existing dbrpMapping` test case. -/
theorem delete_absent_succeeds_unchanged_witness :
    Service.Delete 300 deleteTestStore = .ok deleteTestStore ∧
    Service.FindMany {} deleteTestStore =
      .ok (sortDBRP deleteTestStore, deleteTestStore.length) ∧
    (sortDBRP deleteTestStore).Perm deleteTestStore :=
  delete_absent_succeeds_unchanged 300 deleteTestStore (by decide)

/-- A duplicate of `mapping1` (same `ID`) that is itself invalid: its
`Database` is empty. -/
def dupOfMapping1Invalid : DBRPMappingV2 :=
  { mapping1 with Database := "", Default := true }

/-- C4 counterexample. Over a store containing `mapping1` (id `100`),
`Create` of a mapping with the same id but an empty `Database` fails with
`ErrInvalidDBRPError` (code `EInvalid`), not with `ErrDBRPAlreadyExist`:
validation precedes the duplicate-id check, so not every duplicate-id
`Create` fails with `AlreadyExists`. -/
theorem create_duplicate_invalid_not_alreadyExists :
    dupOfMapping1Invalid.ID = mapping1.ID ∧
    Service.Create (fun _ _ => true) [] dupOfMapping1Invalid [mapping1] =
      .error (ErrInvalidDBRPError .nil) ∧
    Service.Create (fun _ _ => true) [] dupOfMapping1Invalid [mapping1] ≠
      .error (ErrDBRPAlreadyExist .nil) ∧
    (ErrInvalidDBRPError GoError.nil).errCode = some ErrCode.invalid := by
  decide

/-- C4 as amended. For every store state containing a mapping with id `X`,
`Create` of any otherwise-valid mapping (non-empty database and retention
policy, existing target bucket) whose id equals `X` fails with
`AlreadyExists` — it is never an implicit update — and leaves the store
unchanged: a subsequent `FindMany` with the empty filter returns exactly
the previously existing records with their original field values. -/
theorem create_duplicate_rejected (be : Nat → Nat → Bool) (gen : List Nat)
    (m : DBRPMappingV2) (st : List DBRPMappingV2)
    (hdb : m.Database ≠ "") (hrp : m.RetentionPolicy ≠ "")
    (hbk : be m.OrganizationID m.BucketID = true) (hnz : m.ID ≠ 0)
    (hdup : ∃ x ∈ st, x.ID = m.ID) :
    Service.Create be gen m st = .error (ErrDBRPAlreadyExist .nil) ∧
    (ErrDBRPAlreadyExist .nil).errCode = some ErrCode.conflict ∧
    Service.FindMany {} st = .ok (sortDBRP st, st.length) ∧
    (sortDBRP st).Perm st := by
  have hany : st.any (fun x => x.ID == m.ID) = true := by
    obtain ⟨x, hx, hxe⟩ := hdup
    exact List.any_eq_true.mpr ⟨x, hx, by simpa using hxe⟩
  refine ⟨?_, rfl, findMany_empty_filter_eq st, List.perm_insertionSort _ _⟩
  simp [Service.Create, hdb, hrp, hnz, hbk, hany]

/-- Witness for C4 as amended, at the store and duplicate of the
`error on create existing dbrpMapping with same ID` test case. -/
theorem create_duplicate_rejected_witness :
    Service.Create (fun _ _ => true) [] { mapping1 with Default := true }
      [mapping1] = .error (ErrDBRPAlreadyExist .nil) ∧
    (ErrDBRPAlreadyExist GoError.nil).errCode = some ErrCode.conflict ∧
    Service.FindMany {} [mapping1] = .ok (sortDBRP [mapping1], [mapping1].length) ∧
    (sortDBRP [mapping1]).Perm [mapping1] :=
  create_duplicate_rejected (fun _ _ => true) [] { mapping1 with Default := true }
    [mapping1] (by decide) (by decide) rfl (by decide) ⟨mapping1, by decide, rfl⟩

/-- C5. For every valid mapping `m` — non-empty database and retention
policy, existing target bucket, a caller-supplied id that is not already
present — `Create(m)` succeeds, appending exactly `m`, and a subsequent
`FindByID(m.ID)` returns a mapping equal to `m` in every field. -/
theorem create_then_findByID (be : Nat → Nat → Bool) (gen : List Nat)
    (m : DBRPMappingV2) (st : List DBRPMappingV2)
    (hdb : m.Database ≠ "") (hrp : m.RetentionPolicy ≠ "")
    (hbk : be m.OrganizationID m.BucketID = true) (hnz : m.ID ≠ 0)
    (hfresh : ∀ x ∈ st, x.ID ≠ m.ID) :
    Service.Create be gen m st = .ok (st ++ [m], m) ∧
    Service.FindByID m.ID (st ++ [m]) = .ok m := by
  have hany : st.any (fun x => x.ID == m.ID) = false := by
    rw [List.any_eq_false]
    intro x hx
    simpa using hfresh x hx
  constructor
  · simp [Service.Create, hdb, hrp, hnz, hbk, hany]
  · unfold Service.FindByID
    rw [List.find?_append,
      List.find?_eq_none.mpr (fun x hx => by simpa using hfresh x hx)]
    simp

/-- Witness for C5: creating `mapping1` in the empty store and finding it
again by id. -/
theorem create_then_findByID_witness :
    Service.Create (fun _ _ => true) [] mapping1 [] = .ok ([] ++ [mapping1], mapping1) ∧
    Service.FindByID mapping1.ID ([] ++ [mapping1]) = .ok mapping1 :=
  create_then_findByID (fun _ _ => true) [] mapping1 []
    (by decide) (by decide) rfl (by decide) (by simp)

/-- C6. `FindMany` always succeeds, and its result contains a mapping
exactly when the store contains it and it satisfies the conjunction of the
predicates of the set filter fields; a field that is unset (`none`)
imposes no condition, so it is never compared. In particular a filter
setting `retention_policy`, `default` and `org_id` returns exactly the
mappings matching all three (`modelCheck_findMany_mixed` instantiates this
at the `mixed` test table). -/
theorem findMany_conjunction_of_set_fields (f : DBRPMappingFilterV2)
    (st : List DBRPMappingV2) (m : DBRPMappingV2) :
    Service.FindMany f st =
      .ok (Service.FindManyList f st, (Service.FindManyList f st).length) ∧
    (m ∈ Service.FindManyList f st ↔ m ∈ st ∧
      (∀ v, f.ID = some v → m.ID = v) ∧
      (∀ v, f.OrgID = some v → m.OrganizationID = v) ∧
      (∀ v, f.BucketID = some v → m.BucketID = v) ∧
      (∀ v, f.Database = some v → m.Database = v) ∧
      (∀ v, f.RetentionPolicy = some v → m.RetentionPolicy = v) ∧
      (∀ v, f.Default = some v → m.Default = v)) := by
  constructor
  · rfl
  · unfold Service.FindManyList sortDBRP
    rw [List.mem_insertionSort, List.mem_filter, dbrpMatchFilter_eq_true_iff]

/-- C7. `FindMany` with the empty filter succeeds and returns all stored
mappings — a permutation of the store — in ascending
`(organization_id, database, retention_policy, id)` order, together with
their total count. The embedded `FindMany` is a pure function of the
filter and the store, so the order is deterministic and stable under
repeated identical calls. -/
theorem findMany_empty_returns_all_sorted (st : List DBRPMappingV2) :
    ∃ r, Service.FindMany {} st = .ok (r, st.length) ∧ r.Perm st ∧
      List.Sorted dbrpLE r :=
  ⟨sortDBRP st, findMany_empty_filter_eq st, List.perm_insertionSort _ _,
    List.sorted_insertionSort _ _⟩

end DBRP
